import Mathlib

/-!
# Shallow embedding of the Spotify backend proxy (src/server.js)

The repository is a single-process Express gateway that

* holds a process-wide credential pair (`spotifyAccessToken`,
  `spotifyRefreshToken`),
* refreshes the access token at the upstream token endpoint
  (`refreshAccessToken`, server.js lines 31-74), and
* forwards every request under `/api/spotify` to the upstream resource
  API, with a single refresh-and-retry on an upstream 401
  (server.js lines 78-161).

Network I/O is modelled by passing the outcome of each possible network
call in explicitly (`RefreshNetOutcome`, `UpstreamOutcome`): the handler
is a pure function of the current credential state, the inbound request
and those outcomes, returning the client response, the new credential
state and a trace of the refresh invocations and upstream calls it makes.

JavaScript `undefined` is modelled as `Option.none` and JS truthiness of
string-or-absent values by `truthy` (`none`, `null` and `""` are falsy).
Response bodies of the upstream resource API are opaque (`String`),
since the code only relays them.
-/

namespace SpotifyProxy

/-- JS truthiness of a string-valued variable: `none` models
`undefined`/`null`, and the empty string is falsy. -/
def truthy : Option String → Bool
  | none => false
  | some s => s ≠ ""

/-- JS string coercion as performed by a template literal:
`undefined` prints as "undefined". -/
def jsStr : Option String → String
  | none => "undefined"
  | some s => s

/-- The process-wide credential slots: `spotifyAccessToken`
(server.js line 21, a string, possibly `undefined` after a refresh
response without an `access_token` field) and `spotifyRefreshToken`
(line 12, a string or `null`). -/
structure TokenState where
  accessToken : Option String
  refreshToken : Option String
  deriving DecidableEq

/-- Body of a 2xx response of the token endpoint: both fields are
optional JSON string fields. -/
structure TokenResponseData where
  access_token : Option String
  refresh_token : Option String
  deriving DecidableEq

/-- Outcome of the axios POST to the token endpoint:
`success` is a resolved promise (a 2xx status under axios's default
`validateStatus`), `httpError` a rejected promise carrying a response
(`error.response.status` and the JSON field `error.response.data.error`),
`netError` a rejection without a response (timeout / network error). -/
inductive RefreshNetOutcome where
  | success (data : TokenResponseData)
  | httpError (status : Nat) (errorCode : Option String)
  | netError
  deriving DecidableEq

/-- Result of one `refreshAccessToken()` invocation: the returned
boolean, the credential state after the call, and whether a network
call to the token endpoint was attempted. -/
structure RefreshResult where
  ok : Bool
  state : TokenState
  networkCall : Bool
  deriving DecidableEq

/-- `refreshAccessToken` (server.js lines 31-74).

* Lines 32-35: if `spotifyRefreshToken` is falsy, return `false`
  without any network call (and without touching the state).
* Lines 50-58 (2xx): store `response.data.access_token` (even when the
  field is absent), rotate `spotifyRefreshToken` only when the response
  carries a truthy `refresh_token`, return `true`.
* Lines 60-73 (catch): clear `spotifyAccessToken` to `''`; when the
  error has a response with status 400 and error code `invalid_grant`,
  set `spotifyRefreshToken` to `null`; return `false`. -/
def refreshAccessToken (st : TokenState) (net : RefreshNetOutcome) :
    RefreshResult :=
  if !truthy st.refreshToken then
    { ok := false, state := st, networkCall := false }
  else
    match net with
    | .success data =>
      let st1 : TokenState := { st with accessToken := data.access_token }
      let st2 : TokenState :=
        if truthy data.refresh_token then
          { st1 with refreshToken := data.refresh_token }
        else st1
      { ok := true, state := st2, networkCall := true }
    | .httpError status errorCode =>
      let st1 : TokenState := { st with accessToken := some "" }
      let st2 : TokenState :=
        if status = 400 ∧ errorCode = some "invalid_grant" then
          { st1 with refreshToken := none }
        else st1
      { ok := false, state := st2, networkCall := true }
    | .netError =>
      { ok := false, state := { st with accessToken := some "" },
        networkCall := true }

/-!
## The query-string pipeline (server.js line 93)

The handler rebuilds the outbound query string as
`new URLSearchParams(req.query).toString()`, where `req.query` is
Express's parsed query object. The platform pieces are modelled here:

* `parseQueryChars` models Express's query parsing (the `qs` library):
  split the raw query string on `&`, split each non-empty segment at
  the first `=`, percent-decode key and value (`+` decodes to a space),
  and collect repeated keys into an array, in first-occurrence order.
  (Bracket nesting of `qs` is not modelled; keys in all statements
  below are plain names.)
* `serializeQueryChars` models `URLSearchParams.toString()` applied to
  that object: each value is coerced to a string (an array joins its
  elements with `,`), and keys and values are form-urlencoded — ASCII
  alphanumerics and `*-._` kept, space written as `+`, every other
  character percent-encoded as the uppercase hex of its UTF-8 bytes. -/

/-- Numeric value of a hex digit, both cases accepted (code points
48-57 are the decimal digits, 65-70 uppercase A-F, 97-102 lowercase
a-f). -/
def hexDigitVal (c : Char) : Option Nat :=
  let n := c.toNat
  if 48 ≤ n ∧ n ≤ 57 then some (n - 48)
  else if 65 ≤ n ∧ n ≤ 70 then some (n - 55)
  else if 97 ≤ n ∧ n ≤ 102 then some (n - 87)
  else none

/-- Uppercase hex digit for a value below 16. -/
def hexUpper (n : Nat) : Char :=
  if n < 10 then Char.ofNat ('0'.toNat + n)
  else Char.ofNat ('A'.toNat + (n - 10))

/-- Strict percent-decoding (`decodeURIComponent`, modelled at byte
level: each `%HH` yields the character with code `HH`): `none` on a
malformed escape. -/
def strictDecode : List Char → Option (List Char)
  | [] => some []
  | '%' :: h1 :: h2 :: rest =>
    match hexDigitVal h1, hexDigitVal h2 with
    | some a, some b => (strictDecode rest).map (Char.ofNat (16 * a + b) :: ·)
    | _, _ => none
  | '%' :: _ => none
  | c :: rest => (strictDecode rest).map (c :: ·)

/-- `+` decodes to a space (applied before percent-decoding). -/
def plusToSpace (l : List Char) : List Char :=
  l.map (fun c => if c = '+' then ' ' else c)

/-- Decoding of one key or value by the query parser (the `qs`
default decoder): replace `+` by spaces, then `decodeURIComponent`;
a component with a malformed escape is kept as is (after the `+`
replacement). -/
def decodeComponent (l : List Char) : List Char :=
  match strictDecode (plusToSpace l) with
  | some d => d
  | none => plusToSpace l

/-- Characters `URLSearchParams` leaves unescaped
(`application/x-www-form-urlencoded` set): ASCII alphanumerics and
`*`, `-`, `.`, `_`. -/
def isFormUnreserved (c : Char) : Bool :=
  c.isAlphanum || c = '*' || c = '-' || c = '.' || c = '_'

/-- UTF-8 bytes of a code point. -/
def utf8Bytes (n : Nat) : List Nat :=
  if n < 0x80 then [n]
  else if n < 0x800 then [0xC0 + n / 64, 0x80 + n % 64]
  else if n < 0x10000 then
    [0xE0 + n / 4096, 0x80 + n / 64 % 64, 0x80 + n % 64]
  else
    [0xF0 + n / 262144, 0x80 + n / 4096 % 64, 0x80 + n / 64 % 64,
     0x80 + n % 64]

/-- Form-urlencoding of one character. -/
def encodeChar (c : Char) : List Char :=
  if isFormUnreserved c then [c]
  else if c = ' ' then ['+']
  else (utf8Bytes c.toNat).foldr
    (fun b acc => '%' :: hexUpper (b / 16) :: hexUpper (b % 16) :: acc) []

/-- Form-urlencoding of a string. -/
def encodeStr (s : String) : List Char :=
  s.data.foldr (fun c acc => encodeChar c ++ acc) []

/-- Split on `&` (empty segments preserved; `parseQueryChars` drops
them, as the query parser does). -/
def splitAmp : List Char → List (List Char)
  | [] => [[]]
  | c :: rest =>
    if c = '&' then [] :: splitAmp rest
    else
      match splitAmp rest with
      | seg :: segs => (c :: seg) :: segs
      | [] => [[c]]

/-- Split a `key=value` segment at the first `=`; a segment without
`=` is a key with empty value. -/
def splitFirstEq : List Char → List Char × List Char
  | [] => ([], [])
  | c :: rest =>
    if c = '=' then ([], rest)
    else
      let kv := splitFirstEq rest
      (c :: kv.1, kv.2)

/-- Add one decoded `key=value` pair to the parsed-query object:
a repeated key appends to that key's array, a new key is appended at
the end (JS object insertion order). -/
def addParam : List (String × List String) → String → String →
    List (String × List String)
  | [], k, v => [(k, [v])]
  | (k0, vs) :: rest, k, v =>
    if k0 = k then (k0, vs ++ [v]) :: rest
    else (k0, vs) :: addParam rest k v

/-- Decoded key/value of one query segment. -/
def parsePair (seg : List Char) : String × String :=
  let kv := splitFirstEq seg
  (String.mk (decodeComponent kv.1), String.mk (decodeComponent kv.2))

/-- Express's `req.query` object for a raw query string, as a list of
key/array-of-values pairs in property-creation (first-occurrence)
order. Three behaviours of the `qs` parser are NOT modelled and are
excluded by hypothesis (`FaithfulQuery`) from every statement about
the pipeline: bracket nesting (a raw `[` or `]` in a key makes `qs`
build a nested object), the swallowing of a decoded key equal to
`__proto__` (assigning it on a plain object is a no-op), and the
parameter limit (`qs` reads at most 1000 `&`-separated segments). -/
def parseQueryChars (raw : List Char) : List (String × List String) :=
  ((splitAmp raw).filter (· ≠ [])).foldl
    (fun acc seg => addParam acc (parsePair seg).1 (parsePair seg).2) []

/-- `req.query` from the raw query string of the request URL
(without the leading `?`). -/
def parseQuery (raw : String) : List (String × List String) :=
  parseQueryChars raw.data

/-- `String(value)` for a query value: an array joins with `,`. -/
def joinComma (vs : List String) : String :=
  String.intercalate "," vs

/-- One `key=value` segment of `URLSearchParams.toString()`. -/
def serializeSeg (k : String) (vs : List String) : List Char :=
  encodeStr k ++ '=' :: encodeStr (joinComma vs)

/-- `URLSearchParams.toString()` of a parsed-query object. -/
def serializeQueryChars : List (String × List String) → List Char
  | [] => []
  | [p] => serializeSeg p.1 p.2
  | p :: rest => serializeSeg p.1 p.2 ++ '&' :: serializeQueryChars rest

/-- All characters are decimal digits. -/
def allDigits (l : List Char) : Bool :=
  l.all (fun c => 48 ≤ c.toNat && c.toNat ≤ 57)

/-- Decimal value of a digit string. -/
def keyNat (s : String) : Nat :=
  s.data.foldl (fun acc c => acc * 10 + (c.toNat - 48)) 0

/-- Whether a property key is a canonical array index in the sense of
the JS object model: the canonical decimal representation (no leading
zero except for "0" itself) of an integer below 2^32 - 1. Such keys
are enumerated before all other string keys, in ascending numeric
order. -/
def isIndexKey (s : String) : Bool :=
  match s.data with
  | [] => false
  | ['0'] => true
  | c :: rest =>
    c != '0' && allDigits (c :: rest) && decide (keyNat s < 4294967295)

/-- Insert a pair into a list sorted ascending by the numeric value of
the key. -/
def insertIndexKey (p : String × List String) :
    List (String × List String) → List (String × List String)
  | [] => [p]
  | q :: rest =>
    if keyNat p.1 ≤ keyNat q.1 then p :: q :: rest
    else q :: insertIndexKey p rest

/-- Insertion sort ascending by numeric key value. -/
def sortIndexKeys : List (String × List String) →
    List (String × List String)
  | [] => []
  | p :: rest => insertIndexKey p (sortIndexKeys rest)

/-- JS own-property enumeration order of the parsed query object:
canonical-integer keys first in ascending numeric order, then the
remaining keys in property-creation order. `URLSearchParams`
iterates a plain object in this order. -/
def enumOrder (l : List (String × List String)) :
    List (String × List String) :=
  sortIndexKeys (l.filter (fun p => isIndexKey p.1)) ++
    l.filter (fun p => !isIndexKey p.1)

/-- The query string the handler forwards upstream (server.js line 93):
`new URLSearchParams(req.query).toString()`, iterating `req.query` in
JS own-property enumeration order. -/
def forwardedQuery (raw : String) : String :=
  String.mk (serializeQueryChars (enumOrder (parseQuery raw)))

/-!
## The proxy route (server.js lines 78-161)
-/

/-- An inbound client request, as the handler sees it: `req.method`,
`req.path` (the part after the `/api/spotify` mount), the raw query
string of the request URL (without `?`), the `content-type` header
(`none` when absent), and `req.body`, the object produced by
`express.json()` — modelled shallowly as a list of key/value pairs,
`[]` being the empty object `{}` left when there was no JSON body. -/
structure Req where
  method : String
  path : String
  rawQuery : String
  contentType : Option String
  body : List (String × String)
  deriving DecidableEq

/-- Outcome of one axios call to the upstream resource API:
`success` is a resolved promise (2xx status under the default
`validateStatus`) carrying `response.status` and `response.data`
(opaque, since it is only relayed), `httpError` a rejected promise
with a response, `netError` a rejection without one. -/
inductive UpstreamOutcome where
  | success (status : Nat) (data : String)
  | httpError (status : Nat) (data : String)
  | netError
  deriving DecidableEq

/-- The network environment of one request: outcomes that each
possible network call of the handler would observe. `refreshNet1` is
consumed by the step-1 refresh (line 86), `refreshNet2` by the
refresh in the 401 branch (line 124), `upstream1` by the first
upstream call (line 98), `upstream2` by the retry (line 129). -/
structure Env where
  refreshNet1 : RefreshNetOutcome
  refreshNet2 : RefreshNetOutcome
  upstream1 : UpstreamOutcome
  upstream2 : UpstreamOutcome
  deriving DecidableEq

/-- One outbound upstream request as assembled by the handler:
method, full URL, the `Authorization` header value, the
`Content-Type` header (`none` when not set), and the forwarded body
(`none` when no `data` field is passed to axios). -/
structure UpstreamRequest where
  method : String
  url : String
  authorization : String
  contentType : Option String
  body : Option (List (String × String))
  deriving DecidableEq

/-- Observable actions of the handler, in order: each
`refreshAccessToken()` invocation (recording whether it reached the
network and what it returned) and each upstream call. -/
inductive Event where
  | refreshCall (networkCall : Bool) (ok : Bool)
  | upstreamCall (r : UpstreamRequest)
  deriving DecidableEq

/-- The client response: status code plus either a relayed upstream
body or one of the handler's own error payloads. -/
inductive RespBody where
  | relayed (data : String)
  | errAuth
  | errReAuth
  | errRetry
  | errComm
  deriving DecidableEq

/-- `errAuth` is the 503 body of line 88, `errReAuth` the 503 body of
line 149, `errRetry` the 500 body of line 144, `errComm` the 500 body
of line 158. -/
structure ClientResponse where
  status : Nat
  body : RespBody
  deriving DecidableEq

/-- Result of handling one inbound request: the response sent to the
client, the credential state afterwards, and the trace of observable
actions. -/
structure HandlerResult where
  response : ClientResponse
  state : TokenState
  trace : List Event
  deriving DecidableEq

/-- `req.path.startsWith('/') ? req.path.substring(1) : req.path`
(server.js line 80). -/
def stripSlash (p : String) : String :=
  match p.data with
  | '/' :: rest => String.mk rest
  | _ => p

/-- The upstream URL (server.js lines 80, 93-94): strip the leading
slash of `req.path`, append the re-serialized query behind `?` when
it is non-empty. -/
def mkUpstreamUrl (req : Req) : String :=
  let query := forwardedQuery req.rawQuery
  "https://api.spotify.com/v1/" ++ stripSlash req.path ++
    (if query ≠ "" then "?" ++ query else "")

/-- The first upstream call (lines 98-109): bearer header from the
current access token, `Content-Type` forwarded when the inbound header
is truthy, body forwarded only when the parsed body object is
non-empty. -/
def initialUpstreamRequest (tok : Option String) (req : Req)
    (url : String) : UpstreamRequest :=
  { method := req.method, url := url,
    authorization := "Bearer " ++ jsStr tok,
    contentType := if truthy req.contentType then req.contentType else none,
    body := if req.body.length > 0 then some req.body else none }

/-- The retry call (lines 129-135): only the `Authorization` header is
set, and `data: req.body` is passed unconditionally. -/
def retryUpstreamRequest (tok : Option String) (req : Req)
    (url : String) : UpstreamRequest :=
  { method := req.method, url := url,
    authorization := "Bearer " ++ jsStr tok,
    contentType := none,
    body := some req.body }

/-- Steps 2-5 of the handler (lines 93-160), entered with the
credential state `st1` left by step 1 and the trace `tr` of step 1:
issue the upstream call and dispatch on its outcome, with the
single refresh-and-retry in the 401 branch (lines 121-150). -/
def forwardPhase (st1 : TokenState) (req : Req) (url : String)
    (env : Env) (tr : List Event) : HandlerResult :=
  let u1 := initialUpstreamRequest st1.accessToken req url
  let tr1 := tr ++ [Event.upstreamCall u1]
  match env.upstream1 with
  | .success status data =>
    { response := ⟨status, .relayed data⟩, state := st1, trace := tr1 }
  | .netError =>
    { response := ⟨500, .errComm⟩, state := st1, trace := tr1 }
  | .httpError status data =>
    if status = 401 then
      let st2 : TokenState := { st1 with accessToken := some "" }
      let r := refreshAccessToken st2 env.refreshNet2
      let tr2 := tr1 ++ [Event.refreshCall r.networkCall r.ok]
      if r.ok && truthy r.state.accessToken then
        let u2 := retryUpstreamRequest r.state.accessToken req url
        let tr3 := tr2 ++ [Event.upstreamCall u2]
        match env.upstream2 with
        | .success s d =>
          { response := ⟨s, .relayed d⟩, state := r.state, trace := tr3 }
        | .httpError s d =>
          { response := ⟨s, .relayed d⟩, state := r.state, trace := tr3 }
        | .netError =>
          { response := ⟨500, .errRetry⟩, state := r.state, trace := tr3 }
      else
        { response := ⟨503, .errReAuth⟩, state := r.state, trace := tr2 }
    else
      { response := ⟨status, .relayed data⟩, state := st1, trace := tr1 }

/-- The whole `/api/spotify` handler (lines 78-161): step 1 refreshes
when no truthy access token is held and answers 503 when that refresh
fails; otherwise the request proceeds to the forwarding phase. -/
def proxyHandler (st : TokenState) (req : Req) (env : Env) :
    HandlerResult :=
  let url := mkUpstreamUrl req
  if !truthy st.accessToken then
    let r := refreshAccessToken st env.refreshNet1
    if !r.ok then
      { response := ⟨503, .errAuth⟩, state := r.state,
        trace := [Event.refreshCall r.networkCall r.ok] }
    else
      forwardPhase r.state req url env [Event.refreshCall r.networkCall r.ok]
  else
    forwardPhase st req url env []

/-- The upstream requests issued during one handled request, in
order. -/
def upstreamRequestsOf (tr : List Event) : List UpstreamRequest :=
  tr.filterMap fun e =>
    match e with
    | .upstreamCall u => some u
    | _ => none

/-- The refresh invocations during one handled request, in order,
as (networkCall, returned boolean) pairs. -/
def refreshEventsOf (tr : List Event) : List (Bool × Bool) :=
  tr.filterMap fun e =>
    match e with
    | .refreshCall n ok => some (n, ok)
    | _ => none

/-!
## Sequences of operations on the process-wide credential state

The only code that mutates `spotifyAccessToken` / `spotifyRefreshToken`
is `refreshAccessToken` (also invoked once at startup, line 166) and
the proxy handler. A run of the process is a sequence of these
operations. -/

/-- One operation touching the credential state. -/
inductive Op where
  | refreshOp (net : RefreshNetOutcome)
  | requestOp (req : Req) (env : Env)

/-- The credential state after one operation. -/
def applyOp (st : TokenState) : Op → TokenState
  | .refreshOp net => (refreshAccessToken st net).state
  | .requestOp req env => (proxyHandler st req env).state

/-- The credential state after a sequence of operations. -/
def runOps (st : TokenState) : List Op → TokenState
  | [] => st
  | op :: ops => runOps (applyOp st op) ops

/-- The credential state at process start (lines 12, 21): access token
`''`, refresh token from the environment (non-empty, or the process
exits at line 15-18). -/
def initialState (envRefreshToken : String) : TokenState :=
  { accessToken := some "", refreshToken := some envRefreshToken }

/-- States in which a falsy refresh token implies a falsy access
token. This holds at startup and is preserved by every operation: the
only code paths that null the refresh token clear the access token
first, and no path stores an access token while the refresh token is
falsy. -/
def tokenInv (st : TokenState) : Prop :=
  truthy st.refreshToken = false → truthy st.accessToken = false

instance (st : TokenState) : Decidable (tokenInv st) := by
  unfold tokenInv; infer_instance

/-- The credential state with which the forwarding phase runs: either
the inbound state (a truthy access token is held) or the state left by
the step-1 refresh. -/
def step1State (st : TokenState) (env : Env) : TokenState :=
  if truthy st.accessToken then st
  else (refreshAccessToken st env.refreshNet1).state

/-- The trace of step 1: empty when a truthy access token was held,
otherwise the one successful refresh invocation that preceded the
upstream call. -/
def step1Trace (st : TokenState) (env : Env) : List Event :=
  if truthy st.accessToken then []
  else [Event.refreshCall (refreshAccessToken st env.refreshNet1).networkCall
          true]

/-- How the handler translates the retry outcome into the client
response (lines 136-145): status and body relayed for any completed
retry, 500 with a generic payload when the retry gets no response. -/
def retryRelay : UpstreamOutcome → ClientResponse
  | .success s d => ⟨s, .relayed d⟩
  | .httpError s d => ⟨s, .relayed d⟩
  | .netError => ⟨500, .errRetry⟩

/-- Every character of the string is ASCII. -/
def asciiStr (s : String) : Prop :=
  ∀ c ∈ s.data, c.toNat < 128

instance (s : String) : Decidable (asciiStr s) := by
  unfold asciiStr; infer_instance

/-- Parsed-query objects on which re-serialization is faithful:
pairwise distinct keys (always true of a parsed query), ASCII keys,
and a single ASCII value per key. -/
def GoodParsed (l : List (String × List String)) : Prop :=
  (l.map Prod.fst).Nodup ∧
  ∀ p ∈ l, asciiStr p.1 ∧ p.2.length = 1 ∧ ∀ v ∈ p.2, asciiStr v

instance (l : List (String × List String)) : Decidable (GoodParsed l) := by
  unfold GoodParsed; infer_instance

/-- Inbound raw query strings on which the query-pipeline model is
faithful to `qs` (as configured by Express: `allowPrototypes: true`,
everything else default) and on which re-serialization is lossless:
the parse is well-formed (`GoodParsed`), the raw text contains no
bracket characters (raw brackets in a key trigger the unmodelled
nesting of `qs`; percent-encoded brackets do not), no parameter name
decodes to `__proto__` (assigning that key on a plain object is a
no-op, so `qs` effectively drops it), and there are at most 1000
segments (`qs` stops reading at its parameter limit). -/
def FaithfulQuery (raw : String) : Prop :=
  GoodParsed (parseQuery raw) ∧
  (∀ c ∈ raw.data, c ≠ '[' ∧ c ≠ ']') ∧
  (∀ p ∈ parseQuery raw, p.1 ≠ "__proto__") ∧
  (splitAmp raw.data).length ≤ 1000

instance (raw : String) : Decidable (FaithfulQuery raw) := by
  unfold FaithfulQuery; infer_instance

/-!
## Supporting lemmas
-/

theorem refresh_of_falsy (st : TokenState) (net : RefreshNetOutcome)
    (h : truthy st.refreshToken = false) :
    refreshAccessToken st net = ⟨false, st, false⟩ := by
  simp [refreshAccessToken, h]

theorem refresh_of_none (st : TokenState) (net : RefreshNetOutcome)
    (h : st.refreshToken = none) :
    refreshAccessToken st net = ⟨false, st, false⟩ :=
  refresh_of_falsy st net (by rw [h]; rfl)

theorem refresh_success_eq (st : TokenState) (data : TokenResponseData)
    (h : truthy st.refreshToken = true) :
    refreshAccessToken st (.success data) =
      ⟨true,
       { accessToken := data.access_token,
         refreshToken :=
           if truthy data.refresh_token then data.refresh_token
           else st.refreshToken },
       true⟩ := by
  simp only [refreshAccessToken, h, Bool.not_true, Bool.false_eq_true,
    if_false]
  split <;> rfl

theorem refresh_httpError_eq (st : TokenState) (status : Nat)
    (ec : Option String) (h : truthy st.refreshToken = true) :
    refreshAccessToken st (.httpError status ec) =
      ⟨false,
       { accessToken := some "",
         refreshToken :=
           if status = 400 ∧ ec = some "invalid_grant" then none
           else st.refreshToken },
       true⟩ := by
  simp only [refreshAccessToken, h, Bool.not_true, Bool.false_eq_true,
    if_false]
  split <;> rfl

theorem refresh_netError_eq (st : TokenState)
    (h : truthy st.refreshToken = true) :
    refreshAccessToken st .netError =
      ⟨false, { st with accessToken := some "" }, true⟩ := by
  simp only [refreshAccessToken, h, Bool.not_true, Bool.false_eq_true,
    if_false]

theorem refresh_refreshToken_none (st : TokenState) (net : RefreshNetOutcome)
    (h : st.refreshToken = none) :
    (refreshAccessToken st net).state.refreshToken = none := by
  rw [refresh_of_none st net h]; exact h

/-- The credential state left by the forwarding phase is either the
state it was entered with or the state left by the 401-path refresh. -/
theorem forward_state_cases (st1 : TokenState) (req : Req) (url : String)
    (env : Env) (tr : List Event) :
    (forwardPhase st1 req url env tr).state = st1 ∨
    (forwardPhase st1 req url env tr).state =
      (refreshAccessToken ⟨some "", st1.refreshToken⟩ env.refreshNet2).state := by
  unfold forwardPhase
  cases env.upstream1 with
  | success status data => exact Or.inl rfl
  | netError => exact Or.inl rfl
  | httpError status data =>
    dsimp only
    by_cases h4 : status = 401
    · rw [if_pos h4]
      by_cases hr : ((refreshAccessToken ⟨some "", st1.refreshToken⟩
          env.refreshNet2).ok && truthy (refreshAccessToken
          ⟨some "", st1.refreshToken⟩ env.refreshNet2).state.accessToken) = true
      · rw [if_pos hr]
        cases env.upstream2 <;> exact Or.inr rfl
      · rw [if_neg hr]
        exact Or.inr rfl
    · rw [if_neg h4]
      exact Or.inl rfl

/-- The credential state left by the handler is the inbound state, the
state left by the step-1 refresh, or the state left by the 401-path
refresh (entered with a cleared access token). -/
theorem proxy_state_cases (st : TokenState) (req : Req) (env : Env) :
    (proxyHandler st req env).state = st ∨
    (proxyHandler st req env).state =
      (refreshAccessToken st env.refreshNet1).state ∨
    (proxyHandler st req env).state =
      (refreshAccessToken ⟨some "", st.refreshToken⟩ env.refreshNet2).state ∨
    (proxyHandler st req env).state =
      (refreshAccessToken
        ⟨some "", (refreshAccessToken st env.refreshNet1).state.refreshToken⟩
        env.refreshNet2).state := by
  unfold proxyHandler
  by_cases ha : truthy st.accessToken = true
  · rw [if_neg (by rw [ha]; exact Bool.false_ne_true)]
    rcases forward_state_cases st req (mkUpstreamUrl req) env [] with h | h
    · exact Or.inl h
    · exact Or.inr (Or.inr (Or.inl h))
  · rw [if_pos (by rw [eq_false_of_ne_true ha]; rfl)]
    by_cases hr : (refreshAccessToken st env.refreshNet1).ok = true
    · rw [if_neg (by rw [hr]; exact Bool.false_ne_true)]
      rcases forward_state_cases (refreshAccessToken st env.refreshNet1).state
          req (mkUpstreamUrl req) env
          [Event.refreshCall (refreshAccessToken st env.refreshNet1).networkCall
            (refreshAccessToken st env.refreshNet1).ok] with h | h
      · exact Or.inr (Or.inl h)
      · exact Or.inr (Or.inr (Or.inr h))
    · rw [if_pos (by rw [eq_false_of_ne_true hr]; rfl)]
      exact Or.inr (Or.inl rfl)

theorem handler_refreshToken_none (st : TokenState) (req : Req) (env : Env)
    (h : st.refreshToken = none) :
    (proxyHandler st req env).state.refreshToken = none := by
  rcases proxy_state_cases st req env with hc | hc | hc | hc <;> rw [hc]
  · exact h
  · exact refresh_refreshToken_none st env.refreshNet1 h
  · exact refresh_refreshToken_none _ env.refreshNet2 h
  · exact refresh_refreshToken_none _ env.refreshNet2
      (refresh_refreshToken_none st env.refreshNet1 h)

theorem runOps_refreshToken_none (st : TokenState) (ops : List Op)
    (h : st.refreshToken = none) :
    (runOps st ops).refreshToken = none := by
  induction ops generalizing st with
  | nil => exact h
  | cons op ops ih =>
    cases op with
    | refreshOp net =>
      exact ih _ (refresh_refreshToken_none st net h)
    | requestOp req env =>
      exact ih _ (handler_refreshToken_none st req env h)

theorem refresh_preserves_inv (st : TokenState) (net : RefreshNetOutcome)
    (h : tokenInv st) : tokenInv (refreshAccessToken st net).state := by
  by_cases hrt : truthy st.refreshToken
  · cases net with
    | success data =>
      rw [refresh_success_eq st data hrt]
      intro hfalse
      by_cases hd : truthy data.refresh_token <;>
        simp only [hd, if_true, if_false] at hfalse <;> simp_all
    | httpError status ec =>
      rw [refresh_httpError_eq st status ec hrt]
      intro _; rfl
    | netError =>
      rw [refresh_netError_eq st hrt]
      intro _; rfl
  · rw [refresh_of_falsy st net (eq_false_of_ne_true hrt)]
    exact h

theorem refresh_inv_of_cleared (st : TokenState) (net : RefreshNetOutcome)
    (h : truthy st.accessToken = false) :
    tokenInv (refreshAccessToken st net).state := by
  by_cases hrt : truthy st.refreshToken
  · cases net with
    | success data =>
      rw [refresh_success_eq st data hrt]
      intro hfalse
      by_cases hd : truthy data.refresh_token <;>
        simp only [hd, if_true, if_false] at hfalse <;> simp_all
    | httpError status ec =>
      rw [refresh_httpError_eq st status ec hrt]
      intro _; rfl
    | netError =>
      rw [refresh_netError_eq st hrt]
      intro _; rfl
  · rw [refresh_of_falsy st net (eq_false_of_ne_true hrt)]
    intro _; exact h

theorem handler_preserves_inv (st : TokenState) (req : Req) (env : Env)
    (h : tokenInv st) : tokenInv (proxyHandler st req env).state := by
  rcases proxy_state_cases st req env with hc | hc | hc | hc <;> rw [hc]
  · exact h
  · exact refresh_preserves_inv st env.refreshNet1 h
  · exact refresh_inv_of_cleared _ env.refreshNet2 rfl
  · exact refresh_inv_of_cleared _ env.refreshNet2 rfl

theorem runOps_preserves_inv (st : TokenState) (ops : List Op)
    (h : tokenInv st) : tokenInv (runOps st ops) := by
  induction ops generalizing st with
  | nil => exact h
  | cons op ops ih =>
    cases op with
    | refreshOp net => exact ih _ (refresh_preserves_inv st net h)
    | requestOp req env => exact ih _ (handler_preserves_inv st req env h)

theorem forward_success_eq (st1 : TokenState) (req : Req) (url : String)
    (env : Env) (tr : List Event) (s : Nat) (d : String)
    (h : env.upstream1 = .success s d) :
    forwardPhase st1 req url env tr =
      ⟨⟨s, .relayed d⟩, st1,
       tr ++ [Event.upstreamCall (initialUpstreamRequest st1.accessToken req url)]⟩ := by
  unfold forwardPhase
  rw [h]

theorem forward_netError_eq (st1 : TokenState) (req : Req) (url : String)
    (env : Env) (tr : List Event) (h : env.upstream1 = .netError) :
    forwardPhase st1 req url env tr =
      ⟨⟨500, .errComm⟩, st1,
       tr ++ [Event.upstreamCall (initialUpstreamRequest st1.accessToken req url)]⟩ := by
  unfold forwardPhase
  rw [h]

theorem forward_non401_eq (st1 : TokenState) (req : Req) (url : String)
    (env : Env) (tr : List Event) (s : Nat) (d : String)
    (h : env.upstream1 = .httpError s d) (h4 : s ≠ 401) :
    forwardPhase st1 req url env tr =
      ⟨⟨s, .relayed d⟩, st1,
       tr ++ [Event.upstreamCall (initialUpstreamRequest st1.accessToken req url)]⟩ := by
  unfold forwardPhase
  rw [h]
  dsimp only
  rw [if_neg h4]

theorem forward_401_retry_eq (st1 : TokenState) (req : Req) (url : String)
    (env : Env) (tr : List Event) (d : String)
    (h : env.upstream1 = .httpError 401 d)
    (hr : ((refreshAccessToken ⟨some "", st1.refreshToken⟩ env.refreshNet2).ok
          && truthy (refreshAccessToken ⟨some "", st1.refreshToken⟩
              env.refreshNet2).state.accessToken) = true) :
    forwardPhase st1 req url env tr =
      ⟨retryRelay env.upstream2,
       (refreshAccessToken ⟨some "", st1.refreshToken⟩ env.refreshNet2).state,
       tr ++ [Event.upstreamCall (initialUpstreamRequest st1.accessToken req url),
              Event.refreshCall
                (refreshAccessToken ⟨some "", st1.refreshToken⟩ env.refreshNet2).networkCall
                (refreshAccessToken ⟨some "", st1.refreshToken⟩ env.refreshNet2).ok,
              Event.upstreamCall (retryUpstreamRequest
                (refreshAccessToken ⟨some "", st1.refreshToken⟩
                  env.refreshNet2).state.accessToken req url)]⟩ := by
  unfold forwardPhase
  rw [h]
  dsimp only
  rw [if_pos rfl, if_pos hr]
  cases henv2 : env.upstream2 <;> simp [retryRelay]

theorem forward_401_noretry_eq (st1 : TokenState) (req : Req) (url : String)
    (env : Env) (tr : List Event) (d : String)
    (h : env.upstream1 = .httpError 401 d)
    (hr : ((refreshAccessToken ⟨some "", st1.refreshToken⟩ env.refreshNet2).ok
          && truthy (refreshAccessToken ⟨some "", st1.refreshToken⟩
              env.refreshNet2).state.accessToken) = false) :
    forwardPhase st1 req url env tr =
      ⟨⟨503, .errReAuth⟩,
       (refreshAccessToken ⟨some "", st1.refreshToken⟩ env.refreshNet2).state,
       tr ++ [Event.upstreamCall (initialUpstreamRequest st1.accessToken req url),
              Event.refreshCall
                (refreshAccessToken ⟨some "", st1.refreshToken⟩ env.refreshNet2).networkCall
                (refreshAccessToken ⟨some "", st1.refreshToken⟩ env.refreshNet2).ok]⟩ := by
  unfold forwardPhase
  rw [h]
  dsimp only
  rw [if_pos rfl, if_neg (by rw [hr]; exact Bool.false_ne_true)]
  simp

theorem proxy_truthy_eq (st : TokenState) (req : Req) (env : Env)
    (ha : truthy st.accessToken = true) :
    proxyHandler st req env = forwardPhase st req (mkUpstreamUrl req) env [] := by
  unfold proxyHandler
  rw [if_neg (by rw [ha]; exact Bool.false_ne_true)]

theorem proxy_refresh_fail_eq (st : TokenState) (req : Req) (env : Env)
    (ha : truthy st.accessToken = false)
    (hr : (refreshAccessToken st env.refreshNet1).ok = false) :
    proxyHandler st req env =
      ⟨⟨503, .errAuth⟩, (refreshAccessToken st env.refreshNet1).state,
       [Event.refreshCall (refreshAccessToken st env.refreshNet1).networkCall false]⟩ := by
  unfold proxyHandler
  rw [if_pos (by rw [ha]; rfl), if_pos (by rw [hr]; rfl)]
  rw [hr]

theorem proxy_refresh_ok_eq (st : TokenState) (req : Req) (env : Env)
    (ha : truthy st.accessToken = false)
    (hr : (refreshAccessToken st env.refreshNet1).ok = true) :
    proxyHandler st req env =
      forwardPhase (refreshAccessToken st env.refreshNet1).state req
        (mkUpstreamUrl req) env
        [Event.refreshCall (refreshAccessToken st env.refreshNet1).networkCall true] := by
  unfold proxyHandler
  rw [if_pos (by rw [ha]; rfl), if_neg (by rw [hr]; exact Bool.false_ne_true)]
  rw [hr]

theorem upstreamRequestsOf_append (a b : List Event) :
    upstreamRequestsOf (a ++ b) =
      upstreamRequestsOf a ++ upstreamRequestsOf b := by
  unfold upstreamRequestsOf
  exact List.filterMap_append a b _

theorem refreshEventsOf_append (a b : List Event) :
    refreshEventsOf (a ++ b) = refreshEventsOf a ++ refreshEventsOf b := by
  unfold refreshEventsOf
  exact List.filterMap_append a b _

/-- A request reaches the forwarding phase exactly when a truthy
access token was held or the step-1 refresh succeeded; the phase then
runs with the step-1 state and trace. -/
theorem proxy_reach_eq (st : TokenState) (req : Req) (env : Env)
    (h : truthy st.accessToken = true ∨
      (refreshAccessToken st env.refreshNet1).ok = true) :
    proxyHandler st req env =
      forwardPhase (step1State st env) req (mkUpstreamUrl req) env
        (step1Trace st env) := by
  by_cases ha : truthy st.accessToken = true
  · rw [proxy_truthy_eq st req env ha]
    unfold step1State step1Trace
    rw [if_pos ha, if_pos ha]
  · have hr : (refreshAccessToken st env.refreshNet1).ok = true :=
      h.resolve_left ha
    rw [proxy_refresh_ok_eq st req env (eq_false_of_ne_true ha) hr]
    unfold step1State step1Trace
    rw [if_neg ha, if_neg ha]

theorem upstreamRequestsOf_step1Trace (st : TokenState) (env : Env) :
    upstreamRequestsOf (step1Trace st env) = [] := by
  unfold step1Trace
  split <;> rfl

theorem step1Trace_length_le (st : TokenState) (env : Env) :
    (step1Trace st env).length ≤ 1 := by
  unfold step1Trace
  split <;> simp

/-- The trace of the forwarding phase always starts with the entry
trace followed by the first upstream call. -/
theorem forward_trace_take (st1 : TokenState) (req : Req) (url : String)
    (env : Env) (tr : List Event) :
    (forwardPhase st1 req url env tr).trace.take (tr.length + 1) =
      tr ++ [Event.upstreamCall
        (initialUpstreamRequest st1.accessToken req url)] := by
  have hlen : (tr ++ [Event.upstreamCall
      (initialUpstreamRequest st1.accessToken req url)]).length
      = tr.length + 1 := by simp
  cases henv : env.upstream1 with
  | success s d =>
    rw [forward_success_eq st1 req url env tr s d henv]
    exact hlen ▸ List.take_length _
  | netError =>
    rw [forward_netError_eq st1 req url env tr henv]
    exact hlen ▸ List.take_length _
  | httpError s d =>
    by_cases h4 : s = 401
    · subst h4
      by_cases hr : ((refreshAccessToken ⟨some "", st1.refreshToken⟩
            env.refreshNet2).ok && truthy (refreshAccessToken
            ⟨some "", st1.refreshToken⟩ env.refreshNet2).state.accessToken)
            = true
      · rw [forward_401_retry_eq st1 req url env tr d henv hr]
        dsimp only
        rw [show tr ++ [Event.upstreamCall
              (initialUpstreamRequest st1.accessToken req url),
            Event.refreshCall
              (refreshAccessToken ⟨some "", st1.refreshToken⟩
                env.refreshNet2).networkCall
              (refreshAccessToken ⟨some "", st1.refreshToken⟩
                env.refreshNet2).ok,
            Event.upstreamCall (retryUpstreamRequest
              (refreshAccessToken ⟨some "", st1.refreshToken⟩
                env.refreshNet2).state.accessToken req url)]
          = (tr ++ [Event.upstreamCall
              (initialUpstreamRequest st1.accessToken req url)]) ++
            [Event.refreshCall
              (refreshAccessToken ⟨some "", st1.refreshToken⟩
                env.refreshNet2).networkCall
              (refreshAccessToken ⟨some "", st1.refreshToken⟩
                env.refreshNet2).ok,
            Event.upstreamCall (retryUpstreamRequest
              (refreshAccessToken ⟨some "", st1.refreshToken⟩
                env.refreshNet2).state.accessToken req url)] from by simp]
        rw [← hlen]
        exact List.take_left _ _
      · rw [forward_401_noretry_eq st1 req url env tr d henv
          (eq_false_of_ne_true hr)]
        dsimp only
        rw [show tr ++ [Event.upstreamCall
              (initialUpstreamRequest st1.accessToken req url),
            Event.refreshCall
              (refreshAccessToken ⟨some "", st1.refreshToken⟩
                env.refreshNet2).networkCall
              (refreshAccessToken ⟨some "", st1.refreshToken⟩
                env.refreshNet2).ok]
          = (tr ++ [Event.upstreamCall
              (initialUpstreamRequest st1.accessToken req url)]) ++
            [Event.refreshCall
              (refreshAccessToken ⟨some "", st1.refreshToken⟩
                env.refreshNet2).networkCall
              (refreshAccessToken ⟨some "", st1.refreshToken⟩
                env.refreshNet2).ok] from by simp]
        rw [← hlen]
        exact List.take_left _ _
    · rw [forward_non401_eq st1 req url env tr s d henv h4]
      exact hlen ▸ List.take_length _

theorem hexDigitVal_hexUpper (d : Nat) (h : d < 16) :
    hexDigitVal (hexUpper d) = some d := by
  interval_cases d <;> decide

theorem hexUpper_ne (d : Nat) (h : d < 16) :
    hexUpper d ≠ '+' ∧ hexUpper d ≠ '&' ∧ hexUpper d ≠ '=' := by
  interval_cases d <;> decide

theorem unreserved_ne (c : Char) (h : isFormUnreserved c = true) :
    c ≠ '%' ∧ c ≠ '+' ∧ c ≠ '&' ∧ c ≠ '=' ∧ c ≠ ' ' := by
  refine ⟨?_, ?_, ?_, ?_, ?_⟩ <;>
    (intro he; subst he; exact absurd h (by decide))

theorem strictDecode_cons (c : Char) (l : List Char) (h : c ≠ '%') :
    strictDecode (c :: l) = (strictDecode l).map (c :: ·) := by
  cases l with
  | nil => simp [strictDecode, h]
  | cons d rest =>
    cases rest with
    | nil => simp [strictDecode, h]
    | cons e rest2 => simp [strictDecode, h]

theorem strictDecode_percent (h1 h2 : Char) (a b : Nat) (l : List Char)
    (ha : hexDigitVal h1 = some a) (hb : hexDigitVal h2 = some b) :
    strictDecode ('%' :: h1 :: h2 :: l) =
      (strictDecode l).map (Char.ofNat (16 * a + b) :: ·) := by
  simp [strictDecode, ha, hb]

theorem plusToSpace_append (a b : List Char) :
    plusToSpace (a ++ b) = plusToSpace a ++ plusToSpace b :=
  List.map_append _ a b

/-- The characters emitted for one ASCII character: either the
character itself, the plus sign for a space, or a one-byte escape. -/
theorem encodeChar_ascii (c : Char) (h : c.toNat < 128) :
    (isFormUnreserved c = true ∧ encodeChar c = [c]) ∨
    (c = ' ' ∧ encodeChar c = ['+']) ∨
    (isFormUnreserved c = false ∧ c ≠ ' ' ∧
      encodeChar c =
        ['%', hexUpper (c.toNat / 16), hexUpper (c.toNat % 16)]) := by
  by_cases hu : isFormUnreserved c = true
  · exact Or.inl ⟨hu, by rw [encodeChar, if_pos hu]⟩
  · by_cases hs : c = ' '
    · exact Or.inr (Or.inl ⟨hs, by rw [encodeChar, if_neg hu, if_pos hs]⟩)
    · refine Or.inr (Or.inr ⟨eq_false_of_ne_true hu, hs, ?_⟩)
      rw [encodeChar, if_neg hu, if_neg hs,
        show utf8Bytes c.toNat = [c.toNat] from by rw [utf8Bytes, if_pos h]]
      rfl

/-- Decoding inverts the encoding of one ASCII character, in front of
any remaining input. -/
theorem decode_encodeChar (c : Char) (h : c.toNat < 128)
    (rest : List Char) :
    strictDecode (plusToSpace (encodeChar c ++ rest)) =
      (strictDecode (plusToSpace rest)).map (c :: ·) := by
  rw [plusToSpace_append]
  rcases encodeChar_ascii c h with ⟨hu, he⟩ | ⟨hs, he⟩ | ⟨hu, hs, he⟩
  · obtain ⟨hc1, hc2, _, _, _⟩ := unreserved_ne c hu
    rw [he, show plusToSpace [c] = [c] from by simp [plusToSpace, hc2],
      List.singleton_append]
    exact strictDecode_cons c _ hc1
  · subst hs
    rw [he, show plusToSpace ['+'] = [' '] from rfl, List.singleton_append]
    exact strictDecode_cons ' ' _ (by decide)
  · have h1 : c.toNat / 16 < 16 := by omega
    have h2 : c.toNat % 16 < 16 := Nat.mod_lt _ (by norm_num)
    rw [he, show plusToSpace ['%', hexUpper (c.toNat / 16),
        hexUpper (c.toNat % 16)]
      = ['%', hexUpper (c.toNat / 16), hexUpper (c.toNat % 16)] from by
        simp [plusToSpace, (hexUpper_ne _ h1).1, (hexUpper_ne _ h2).1]]
    rw [show ['%', hexUpper (c.toNat / 16), hexUpper (c.toNat % 16)] ++
        plusToSpace rest
      = '%' :: hexUpper (c.toNat / 16) :: hexUpper (c.toNat % 16) ::
        plusToSpace rest from rfl]
    rw [strictDecode_percent _ _ _ _ _ (hexDigitVal_hexUpper _ h1)
      (hexDigitVal_hexUpper _ h2)]
    rw [Nat.div_add_mod, Char.ofNat_toNat]

/-- Decoding inverts the encoding of an ASCII character list, in
front of any remaining input. -/
theorem decode_encodeList (l : List Char) (h : ∀ c ∈ l, c.toNat < 128)
    (rest : List Char) :
    strictDecode (plusToSpace
        (l.foldr (fun c acc => encodeChar c ++ acc) [] ++ rest)) =
      (strictDecode (plusToSpace rest)).map (l ++ ·) := by
  induction l with
  | nil =>
    simp only [List.foldr_nil, List.nil_append]
    cases strictDecode (plusToSpace rest) <;> rfl
  | cons c l ih =>
    rw [List.foldr_cons, List.append_assoc,
      decode_encodeChar c (h c (List.mem_cons_self c l)) _,
      ih (fun x hx => h x (List.mem_cons_of_mem c hx)), Option.map_map]
    rfl

/-- Decoding a form-encoded ASCII string gives back its characters. -/
theorem decodeComponent_encode (s : String) (h : asciiStr s) :
    decodeComponent (encodeStr s) = s.data := by
  have hd := decode_encodeList s.data h []
  rw [List.append_nil] at hd
  have hd2 : strictDecode (plusToSpace
      (s.data.foldr (fun c acc => encodeChar c ++ acc) [])) = some s.data := by
    rw [hd, show strictDecode (plusToSpace []) = some ([] : List Char)
        from rfl,
      show Option.map (fun x => s.data ++ x) (some ([] : List Char))
        = some (s.data ++ []) from rfl, List.append_nil]
  unfold decodeComponent encodeStr
  rw [hd2]

/-- The encoding of an ASCII character contains neither of the two
separators of the query syntax. -/
theorem encodeChar_not_sep (c : Char) (h : c.toNat < 128) :
    '&' ∉ encodeChar c ∧ '=' ∉ encodeChar c := by
  rcases encodeChar_ascii c h with ⟨hu, he⟩ | ⟨hs, he⟩ | ⟨hu, hs, he⟩ <;>
    rw [he]
  · obtain ⟨_, _, h3, h4, _⟩ := unreserved_ne c hu
    refine ⟨fun hm => ?_, fun hm => ?_⟩
    · rw [List.mem_singleton] at hm; exact h3 hm.symm
    · rw [List.mem_singleton] at hm; exact h4 hm.symm
  · exact ⟨by decide, by decide⟩
  · have h1 := hexUpper_ne (c.toNat / 16) (by omega)
    have h2 := hexUpper_ne (c.toNat % 16) (Nat.mod_lt _ (by norm_num))
    refine ⟨fun hm => ?_, fun hm => ?_⟩ <;>
      rcases List.mem_cons.mp hm with hm1 | hm1
    · exact absurd hm1 (by decide)
    · rcases List.mem_cons.mp hm1 with hm2 | hm2
      · exact h1.2.1 hm2.symm
      · rw [List.mem_singleton] at hm2; exact h2.2.1 hm2.symm
    · exact absurd hm1 (by decide)
    · rcases List.mem_cons.mp hm1 with hm2 | hm2
      · exact h1.2.2 hm2.symm
      · rw [List.mem_singleton] at hm2; exact h2.2.2 hm2.symm

/-- The encoding of an ASCII string contains neither separator. -/
theorem encodeList_not_sep (l : List Char) (h : ∀ c ∈ l, c.toNat < 128) :
    '&' ∉ l.foldr (fun c acc => encodeChar c ++ acc) [] ∧
    '=' ∉ l.foldr (fun c acc => encodeChar c ++ acc) [] := by
  induction l with
  | nil => exact ⟨List.not_mem_nil _, List.not_mem_nil _⟩
  | cons c l ih =>
    have hc := encodeChar_not_sep c (h c (List.mem_cons_self c l))
    have ih2 := ih (fun x hx => h x (List.mem_cons_of_mem c hx))
    rw [List.foldr_cons]
    exact ⟨fun hm => ((List.mem_append.mp hm).elim (hc.1 ·) (ih2.1 ·)),
           fun hm => ((List.mem_append.mp hm).elim (hc.2 ·) (ih2.2 ·))⟩

theorem splitFirstEq_append (k v : List Char) (h : '=' ∉ k) :
    splitFirstEq (k ++ '=' :: v) = (k, v) := by
  induction k with
  | nil => simp [splitFirstEq]
  | cons c k ih =>
    have hc : ¬c = '=' :=
      fun hc => h (by rw [hc]; exact List.mem_cons_self _ _)
    rw [List.cons_append]
    simp only [splitFirstEq]
    rw [if_neg hc, ih (fun hm => h (List.mem_cons_of_mem c hm))]

theorem splitAmp_no_amp (l : List Char) (h : '&' ∉ l) :
    splitAmp l = [l] := by
  induction l with
  | nil => rfl
  | cons c l ih =>
    have hc : ¬c = '&' :=
      fun hc => h (by rw [hc]; exact List.mem_cons_self _ _)
    simp only [splitAmp]
    rw [if_neg hc, ih (fun hm => h (List.mem_cons_of_mem c hm))]

theorem splitAmp_append (a b : List Char) (h : '&' ∉ a) :
    splitAmp (a ++ '&' :: b) = a :: splitAmp b := by
  induction a with
  | nil =>
    rw [List.nil_append]
    simp [splitAmp]
  | cons c a ih =>
    have hc : ¬c = '&' :=
      fun hc => h (by rw [hc]; exact List.mem_cons_self _ _)
    rw [List.cons_append]
    simp only [splitAmp]
    rw [if_neg hc, ih (fun hm => h (List.mem_cons_of_mem c hm))]

theorem addParam_notMem (acc : List (String × List String)) (k v : String)
    (h : k ∉ acc.map Prod.fst) :
    addParam acc k v = acc ++ [(k, [v])] := by
  induction acc with
  | nil => rfl
  | cons p acc ih =>
    obtain ⟨k0, vs⟩ := p
    have hp : ¬k0 = k := by
      intro he
      exact h (by rw [List.map_cons]; exact List.mem_cons.mpr (Or.inl he.symm))
    simp only [addParam]
    rw [if_neg hp,
      ih (fun hm => h (by rw [List.map_cons]; exact List.mem_cons_of_mem _ hm))]
    rfl

/-- Parsing one serialized `key=value` segment recovers the decoded
key and value. -/
theorem parsePair_seg (k v : String) (hk : asciiStr k) (hv : asciiStr v) :
    parsePair (serializeSeg k [v]) = (k, v) := by
  unfold serializeSeg parsePair
  rw [show joinComma [v] = v from rfl,
    splitFirstEq_append (encodeStr k) (encodeStr v)
      (encodeList_not_sep k.data hk).2]
  dsimp only
  rw [decodeComponent_encode k hk, decodeComponent_encode v hv]

theorem serializeSeg_no_amp (k v : String) (hk : asciiStr k)
    (hv : asciiStr v) : '&' ∉ serializeSeg k [v] := by
  unfold serializeSeg
  rw [show joinComma [v] = v from rfl]
  intro hm
  rcases List.mem_append.mp hm with hm1 | hm1
  · exact (encodeList_not_sep k.data hk).1 hm1
  · rcases List.mem_cons.mp hm1 with hm2 | hm2
    · exact absurd hm2 (by decide)
    · exact (encodeList_not_sep v.data hv).1 hm2

theorem serializeSeg_ne_nil (k : String) (vs : List String) :
    serializeSeg k vs ≠ [] := by
  unfold serializeSeg
  simp

/-- Re-parsing the serialization of a well-formed parsed-query object
rebuilds it on top of any accumulator with disjoint keys. -/
theorem parse_serialize_aux (l acc : List (String × List String))
    (hgood : GoodParsed l)
    (hdisj : ∀ p ∈ l, p.1 ∉ acc.map Prod.fst) :
    ((splitAmp (serializeQueryChars l)).filter (· ≠ [])).foldl
      (fun a seg => addParam a (parsePair seg).1 (parsePair seg).2) acc
      = acc ++ l := by
  induction l generalizing acc with
  | nil => simp [serializeQueryChars, splitAmp]
  | cons p rest ih =>
    obtain ⟨hka, hlen, hvals⟩ := hgood.2 p (List.mem_cons_self p rest)
    obtain ⟨v, hv⟩ := List.length_eq_one.mp hlen
    have hva : asciiStr v :=
      hvals v (by rw [hv]; exact List.mem_singleton.mpr rfl)
    have hseg : parsePair (serializeSeg p.1 p.2) = (p.1, v) := by
      rw [hv]; exact parsePair_seg p.1 v hka hva
    have hsegne : serializeSeg p.1 p.2 ≠ [] := serializeSeg_ne_nil p.1 p.2
    have hsegamp : '&' ∉ serializeSeg p.1 p.2 := by
      rw [hv]; exact serializeSeg_no_amp p.1 v hka hva
    have hstep : addParam acc p.1 v = acc ++ [p] := by
      rw [addParam_notMem acc p.1 v (hdisj p (List.mem_cons_self p rest))]
      have hpv : (p.1, [v]) = p := by rw [← hv]
      rw [hpv]
    cases rest with
    | nil =>
      rw [show serializeQueryChars [p] = serializeSeg p.1 p.2 from rfl,
        splitAmp_no_amp _ hsegamp,
        show ([serializeSeg p.1 p.2].filter (· ≠ []))
          = [serializeSeg p.1 p.2] from by simp [List.filter_cons, hsegne],
        List.foldl_cons, List.foldl_nil]
      rw [hseg]
      exact hstep
    | cons q rest2 =>
      have hnodup := hgood.1
      rw [List.map_cons] at hnodup
      have hgood2 : GoodParsed (q :: rest2) :=
        ⟨(List.nodup_cons.mp hnodup).2,
         fun r hr => hgood.2 r (List.mem_cons_of_mem p hr)⟩
      have hdisj2 : ∀ r ∈ q :: rest2, r.1 ∉ (acc ++ [p]).map Prod.fst := by
        intro r hr hm
        rw [List.map_append] at hm
        rcases List.mem_append.mp hm with hm1 | hm1
        · exact hdisj r (List.mem_cons_of_mem p hr) hm1
        · rw [show ([p].map Prod.fst) = [p.1] from rfl,
            List.mem_singleton] at hm1
          exact (List.nodup_cons.mp hnodup).1
            (hm1 ▸ List.mem_map_of_mem Prod.fst hr)
      rw [show serializeQueryChars (p :: q :: rest2)
          = serializeSeg p.1 p.2 ++ '&' :: serializeQueryChars (q :: rest2)
          from rfl,
        splitAmp_append _ _ hsegamp,
        show ((serializeSeg p.1 p.2 ::
            splitAmp (serializeQueryChars (q :: rest2))).filter (· ≠ []))
          = serializeSeg p.1 p.2 ::
            ((splitAmp (serializeQueryChars (q :: rest2))).filter (· ≠ []))
          from by simp [List.filter_cons, hsegne],
        List.foldl_cons]
      rw [hseg]
      rw [hstep, ih (acc ++ [p]) hgood2 hdisj2]
      simp

/-- Round trip: `URLSearchParams.toString()` of a well-formed parsed
query re-parses to the same object. -/
theorem parseQueryChars_serialize (l : List (String × List String))
    (hgood : GoodParsed l) :
    parseQueryChars (serializeQueryChars l) = l := by
  have haux := parse_serialize_aux l [] hgood (by simp)
  rw [List.nil_append] at haux
  exact haux

theorem insertIndexKey_perm (p : String × List String)
    (l : List (String × List String)) :
    List.Perm (insertIndexKey p l) (p :: l) := by
  induction l with
  | nil => exact List.Perm.refl _
  | cons q rest ih =>
    simp only [insertIndexKey]
    split
    · exact List.Perm.refl _
    · exact (ih.cons q).trans (List.Perm.swap p q rest)

theorem sortIndexKeys_perm (l : List (String × List String)) :
    List.Perm (sortIndexKeys l) l := by
  induction l with
  | nil => exact List.Perm.refl _
  | cons p rest ih =>
    simp only [sortIndexKeys]
    exact (insertIndexKey_perm p (sortIndexKeys rest)).trans (ih.cons p)

/-- Re-ordering the parsed query into enumeration order permutes it. -/
theorem enumOrder_perm (l : List (String × List String)) :
    List.Perm (enumOrder l) l := by
  unfold enumOrder
  exact ((sortIndexKeys_perm _).append (List.Perm.refl _)).trans
    (List.filter_append_perm _ l)

/-- Enumeration order preserves well-formedness of a parsed query. -/
theorem enumOrder_good (l : List (String × List String))
    (h : GoodParsed l) : GoodParsed (enumOrder l) := by
  obtain ⟨h1, h2⟩ := h
  have hp := enumOrder_perm l
  exact ⟨((hp.map Prod.fst).nodup_iff).mpr h1,
    fun p hpm => h2 p (hp.mem_iff.mp hpm)⟩

/-- A parsed query without canonical-integer keys is already in
enumeration order. -/
theorem enumOrder_eq_self (l : List (String × List String))
    (h : ∀ p ∈ l, isIndexKey p.1 = false) : enumOrder l = l := by
  unfold enumOrder
  rw [List.filter_eq_nil_iff.mpr
      (fun p hp => by rw [h p hp]; exact Bool.false_ne_true),
    show sortIndexKeys [] = [] from rfl, List.nil_append]
  exact List.filter_eq_self.mpr (fun p hp => by rw [h p hp]; rfl)

/-!
## Claims
-/

/-- C2: a refresh with a falsy (null/absent) stored refresh token fails
immediately, with no network call and no state change; a refresh
failing with status 400 and error code invalid_grant nulls the stored
refresh token; and once the refresh token is null, no sequence of
operations (refreshes or handled requests) ever makes it non-null
again — so every subsequent refresh returns failure without a network
call, by the first conjunct. -/
theorem C2_refresh_token_permanence :
    (∀ (st : TokenState) (net : RefreshNetOutcome),
      truthy st.refreshToken = false →
      refreshAccessToken st net = ⟨false, st, false⟩) ∧
    (∀ st : TokenState, truthy st.refreshToken = true →
      (refreshAccessToken st (.httpError 400 (some "invalid_grant"))).ok
          = false ∧
      (refreshAccessToken st
          (.httpError 400 (some "invalid_grant"))).state.refreshToken
          = none) ∧
    (∀ (st : TokenState) (ops : List Op),
      st.refreshToken = none → (runOps st ops).refreshToken = none) := by
  refine ⟨refresh_of_falsy, ?_, runOps_refreshToken_none⟩
  intro st h
  rw [refresh_httpError_eq st 400 (some "invalid_grant") h]
  exact ⟨rfl, by rw [if_pos ⟨rfl, rfl⟩]⟩

/-- Witness for C2 at concrete inputs: a state with a null refresh
token (and a stale access token) fails with no network call; a 400
invalid_grant failure nulls the refresh token; a later refresh and a
later request leave it null. -/
theorem C2_witness :
    (refreshAccessToken ⟨some "x", none⟩ .netError
        = ⟨false, ⟨some "x", none⟩, false⟩) ∧
    ((refreshAccessToken ⟨some "", some "R"⟩
        (.httpError 400 (some "invalid_grant"))).ok = false ∧
      (refreshAccessToken ⟨some "", some "R"⟩
        (.httpError 400 (some "invalid_grant"))).state.refreshToken = none) ∧
    (runOps ⟨some "", none⟩
        [Op.refreshOp (.success ⟨some "A", some "B"⟩),
         Op.requestOp ⟨"GET", "/me", "", none, []⟩
           ⟨.success ⟨some "A", some "B"⟩, .netError, .success 200 "x",
            .netError⟩]).refreshToken = none :=
  ⟨C2_refresh_token_permanence.1 ⟨some "x", none⟩ .netError (by decide),
   C2_refresh_token_permanence.2.1 ⟨some "", some "R"⟩ (by decide),
   C2_refresh_token_permanence.2.2 ⟨some "", none⟩ _ rfl⟩

/-- C4 counterexample: a 2xx token-endpoint response that includes a
refresh_token field holding the empty string. The refresh succeeds,
the response includes a refresh_token, yet the stored refresh token is
left at its previous value rather than overwritten — the code tests
JS truthiness (line 52), not presence, so the "if and only if" of the
claim fails. -/
theorem C4_counterexample :
    (refreshAccessToken ⟨some "", some "R"⟩
        (.success ⟨some "A", some ""⟩)).ok = true ∧
    (TokenResponseData.mk (some "A") (some "")).refresh_token.isSome = true ∧
    (refreshAccessToken ⟨some "", some "R"⟩
        (.success ⟨some "A", some ""⟩)).state.refreshToken = some "R" ∧
    (some "R" : Option String) ≠ some "" := by decide

/-- C4 amended: for every successful refresh, the returned
access_token value is stored, and the stored refresh token is
overwritten exactly when the response carries a truthy (present,
non-empty) refresh_token, and retained otherwise. -/
theorem C4_success_storage (st : TokenState) (data : TokenResponseData)
    (h : truthy st.refreshToken = true) :
    (refreshAccessToken st (.success data)).ok = true ∧
    (refreshAccessToken st (.success data)).state.accessToken
        = data.access_token ∧
    (refreshAccessToken st (.success data)).state.refreshToken
        = (if truthy data.refresh_token then data.refresh_token
           else st.refreshToken) := by
  rw [refresh_success_eq st data h]
  exact ⟨rfl, rfl, rfl⟩

/-- Witness for C4 at a concrete input: a success response without a
refresh_token stores the access token and retains the old refresh
token. -/
theorem C4_witness :
    (refreshAccessToken ⟨some "", some "R"⟩
        (.success ⟨some "A", none⟩)).ok = true ∧
    (refreshAccessToken ⟨some "", some "R"⟩
        (.success ⟨some "A", none⟩)).state.accessToken
        = (TokenResponseData.mk (some "A") none).access_token ∧
    (refreshAccessToken ⟨some "", some "R"⟩
        (.success ⟨some "A", none⟩)).state.refreshToken
        = (if truthy (TokenResponseData.mk (some "A") none).refresh_token
           then (TokenResponseData.mk (some "A") none).refresh_token
           else (TokenState.mk (some "") (some "R")).refreshToken) :=
  C4_success_storage ⟨some "", some "R"⟩ ⟨some "A", none⟩ (by decide)

/-- C5: in every reachable credential state (the invariant `tokenInv`
holds at startup and is preserved by every refresh and every handled
request), a failing refresh leaves the stored access token falsy —
including the immediate failure on a null refresh token, where the
state is untouched and the access token was already cleared — and any
failure other than an HTTP 400 invalid_grant response (other statuses,
other error codes, network errors) retains the stored refresh token
unchanged. -/
theorem C5_failure_effects :
    (∀ rt : String, tokenInv (initialState rt)) ∧
    (∀ (st : TokenState) (ops : List Op),
      tokenInv st → tokenInv (runOps st ops)) ∧
    (∀ (st : TokenState) (net : RefreshNetOutcome), tokenInv st →
      (refreshAccessToken st net).ok = false →
      truthy (refreshAccessToken st net).state.accessToken = false) ∧
    (∀ (st : TokenState) (s : Nat) (ec : Option String),
      ¬(s = 400 ∧ ec = some "invalid_grant") →
      (refreshAccessToken st (.httpError s ec)).state.refreshToken
          = st.refreshToken) ∧
    (∀ st : TokenState,
      (refreshAccessToken st .netError).state.refreshToken
          = st.refreshToken) := by
  refine ⟨fun rt _ => rfl, runOps_preserves_inv, ?_, ?_, ?_⟩
  · intro st net hinv hok
    by_cases hrt : truthy st.refreshToken = true
    · cases net with
      | success data =>
        rw [refresh_success_eq st data hrt] at hok
        simp at hok
      | httpError s ec =>
        rw [refresh_httpError_eq st s ec hrt]
        rfl
      | netError =>
        rw [refresh_netError_eq st hrt]
        rfl
    · rw [refresh_of_falsy st net (eq_false_of_ne_true hrt)]
      exact hinv (eq_false_of_ne_true hrt)
  · intro st s ec hne
    by_cases hrt : truthy st.refreshToken = true
    · rw [refresh_httpError_eq st s ec hrt]
      exact if_neg hne
    · rw [refresh_of_falsy st _ (eq_false_of_ne_true hrt)]
  · intro st
    by_cases hrt : truthy st.refreshToken = true
    · rw [refresh_netError_eq st hrt]
    · rw [refresh_of_falsy st _ (eq_false_of_ne_true hrt)]

/-- Witness for C5 at concrete inputs: the invariant at startup and
after a run, a cleared access token after a failing refresh (both the
network-failure case and the immediate null-refresh-token case), and a
retained refresh token after a 429 failure and a network failure. -/
theorem C5_witness :
    tokenInv (initialState "R") ∧
    tokenInv (runOps ⟨some "", some "R"⟩
      [Op.refreshOp (.httpError 400 (some "invalid_grant"))]) ∧
    truthy (refreshAccessToken ⟨some "T", some "R"⟩ .netError).state.accessToken
        = false ∧
    truthy (refreshAccessToken ⟨some "", none⟩ .netError).state.accessToken
        = false ∧
    (refreshAccessToken ⟨some "T", some "R"⟩
        (.httpError 429 (some "rate_limited"))).state.refreshToken
        = (TokenState.mk (some "T") (some "R")).refreshToken ∧
    (refreshAccessToken ⟨some "T", some "R"⟩ .netError).state.refreshToken
        = (TokenState.mk (some "T") (some "R")).refreshToken :=
  ⟨C5_failure_effects.1 "R",
   C5_failure_effects.2.1 ⟨some "", some "R"⟩ _ (by decide),
   C5_failure_effects.2.2.1 ⟨some "T", some "R"⟩ .netError (by decide)
     (by decide),
   C5_failure_effects.2.2.1 ⟨some "", none⟩ .netError (by decide) (by decide),
   C5_failure_effects.2.2.2.1 ⟨some "T", some "R"⟩ 429 (some "rate_limited")
     (by decide),
   C5_failure_effects.2.2.2.2 ⟨some "T", some "R"⟩⟩

/-- C6: when a request arrives with no truthy access token held,
exactly one refresh invocation precedes the upstream call (the trace
starts with that refresh followed by the upstream call); when that
refresh fails the client gets the 503 service-unavailable response and
no upstream call at all is made; in particular with a null refresh
token the refresh fails fast (no network call) and the request yields
the 503 with zero upstream calls. -/
theorem C6_refresh_before_upstream (st : TokenState) (req : Req) (env : Env)
    (ha : truthy st.accessToken = false) :
    ((refreshAccessToken st env.refreshNet1).ok = false →
      (proxyHandler st req env).response = ⟨503, .errAuth⟩ ∧
      upstreamRequestsOf (proxyHandler st req env).trace = [] ∧
      refreshEventsOf (proxyHandler st req env).trace =
        [((refreshAccessToken st env.refreshNet1).networkCall, false)]) ∧
    ((refreshAccessToken st env.refreshNet1).ok = true →
      (proxyHandler st req env).trace.take 2 =
        [Event.refreshCall
           (refreshAccessToken st env.refreshNet1).networkCall true,
         Event.upstreamCall (initialUpstreamRequest
           (refreshAccessToken st env.refreshNet1).state.accessToken req
           (mkUpstreamUrl req))]) ∧
    (st.refreshToken = none →
      proxyHandler st req env =
        ⟨⟨503, .errAuth⟩, st, [Event.refreshCall false false]⟩) := by
  refine ⟨fun hr => ?_, fun hr => ?_, fun hnone => ?_⟩
  · rw [proxy_refresh_fail_eq st req env ha hr]
    exact ⟨rfl, rfl, rfl⟩
  · rw [proxy_refresh_ok_eq st req env ha hr]
    exact forward_trace_take (refreshAccessToken st env.refreshNet1).state
      req (mkUpstreamUrl req) env
      [Event.refreshCall (refreshAccessToken st env.refreshNet1).networkCall
        true]
  · have hr : (refreshAccessToken st env.refreshNet1).ok = false := by
      rw [refresh_of_none st env.refreshNet1 hnone]
    rw [proxy_refresh_fail_eq st req env ha hr,
      refresh_of_none st env.refreshNet1 hnone]

/-- Witness for C6 at concrete inputs: a failing step-1 refresh
(network error) yields the 503 with no upstream call; a succeeding
step-1 refresh is followed by the upstream call; a null refresh token
yields the 503 with a no-network refresh and zero upstream calls. -/
theorem C6_witness :
    ((proxyHandler ⟨some "", some "R"⟩ ⟨"GET", "/me", "", none, []⟩
        ⟨.netError, .netError, .success 200 "ok", .netError⟩).response
        = ⟨503, .errAuth⟩ ∧
      upstreamRequestsOf (proxyHandler ⟨some "", some "R"⟩
        ⟨"GET", "/me", "", none, []⟩
        ⟨.netError, .netError, .success 200 "ok", .netError⟩).trace = [] ∧
      refreshEventsOf (proxyHandler ⟨some "", some "R"⟩
        ⟨"GET", "/me", "", none, []⟩
        ⟨.netError, .netError, .success 200 "ok", .netError⟩).trace
        = [(true, false)]) ∧
    ((proxyHandler ⟨some "", some "R"⟩ ⟨"GET", "/me", "", none, []⟩
        ⟨.success ⟨some "A", none⟩, .netError, .success 200 "ok",
         .netError⟩).trace.take 2
        = [Event.refreshCall true true,
           Event.upstreamCall ⟨"GET", "https://api.spotify.com/v1/me",
             "Bearer A", none, none⟩]) ∧
    (proxyHandler ⟨some "", none⟩ ⟨"GET", "/me", "", none, []⟩
        ⟨.netError, .netError, .success 200 "ok", .netError⟩
        = ⟨⟨503, .errAuth⟩, ⟨some "", none⟩, [Event.refreshCall false false]⟩) := by
  have h1 := (C6_refresh_before_upstream ⟨some "", some "R"⟩
    ⟨"GET", "/me", "", none, []⟩
    ⟨.netError, .netError, .success 200 "ok", .netError⟩ rfl).1 rfl
  have h2 := (C6_refresh_before_upstream ⟨some "", some "R"⟩
    ⟨"GET", "/me", "", none, []⟩
    ⟨.success ⟨some "A", none⟩, .netError, .success 200 "ok",
     .netError⟩ rfl).2.1 rfl
  have h3 := (C6_refresh_before_upstream ⟨some "", none⟩
    ⟨"GET", "/me", "", none, []⟩
    ⟨.netError, .netError, .success 200 "ok", .netError⟩ rfl).2.2 rfl
  refine ⟨⟨h1.1, h1.2.1, ?_⟩, ?_, h3⟩
  · rw [h1.2.2]
    decide
  · rw [h2]
    decide

/-- C8: an initial upstream error with any status other than 401 is
relayed to the client with the identical status and the upstream body
unchanged; exactly one upstream call is made and no refresh happens
beyond the step-1 refresh that may have preceded the upstream call. -/
theorem C8_non401_relay (st : TokenState) (req : Req) (env : Env)
    (s : Nat) (d : String) (h : env.upstream1 = .httpError s d)
    (h4 : s ≠ 401)
    (hreach : truthy st.accessToken = true ∨
      (refreshAccessToken st env.refreshNet1).ok = true) :
    (proxyHandler st req env).response = ⟨s, .relayed d⟩ ∧
    upstreamRequestsOf (proxyHandler st req env).trace =
      [initialUpstreamRequest (step1State st env).accessToken req
        (mkUpstreamUrl req)] ∧
    refreshEventsOf (proxyHandler st req env).trace =
      refreshEventsOf (step1Trace st env) := by
  rw [proxy_reach_eq st req env hreach,
    forward_non401_eq (step1State st env) req (mkUpstreamUrl req) env
      (step1Trace st env) s d h h4]
  refine ⟨rfl, ?_, ?_⟩
  · rw [show (⟨⟨s, .relayed d⟩, step1State st env,
        step1Trace st env ++ [Event.upstreamCall (initialUpstreamRequest
          (step1State st env).accessToken req (mkUpstreamUrl req))]⟩ :
        HandlerResult).trace
      = step1Trace st env ++ [Event.upstreamCall (initialUpstreamRequest
          (step1State st env).accessToken req (mkUpstreamUrl req))] from rfl,
      upstreamRequestsOf_append, upstreamRequestsOf_step1Trace]
    rfl
  · rw [show (⟨⟨s, .relayed d⟩, step1State st env,
        step1Trace st env ++ [Event.upstreamCall (initialUpstreamRequest
          (step1State st env).accessToken req (mkUpstreamUrl req))]⟩ :
        HandlerResult).trace
      = step1Trace st env ++ [Event.upstreamCall (initialUpstreamRequest
          (step1State st env).accessToken req (mkUpstreamUrl req))] from rfl,
      refreshEventsOf_append]
    simp [refreshEventsOf]

/-- Witness for C8 at a concrete input: a 429 with a rate-limit body
is relayed verbatim, with one upstream call and no refresh. -/
theorem C8_witness :
    (proxyHandler ⟨some "T", some "R"⟩ ⟨"GET", "/me", "", none, []⟩
        ⟨.netError, .netError, .httpError 429 "rate limited",
         .netError⟩).response = ⟨429, .relayed "rate limited"⟩ ∧
    upstreamRequestsOf (proxyHandler ⟨some "T", some "R"⟩
        ⟨"GET", "/me", "", none, []⟩
        ⟨.netError, .netError, .httpError 429 "rate limited",
         .netError⟩).trace
      = [initialUpstreamRequest
          (step1State ⟨some "T", some "R"⟩
            ⟨.netError, .netError, .httpError 429 "rate limited",
             .netError⟩).accessToken
          ⟨"GET", "/me", "", none, []⟩
          (mkUpstreamUrl ⟨"GET", "/me", "", none, []⟩)] ∧
    refreshEventsOf (proxyHandler ⟨some "T", some "R"⟩
        ⟨"GET", "/me", "", none, []⟩
        ⟨.netError, .netError, .httpError 429 "rate limited",
         .netError⟩).trace
      = refreshEventsOf (step1Trace ⟨some "T", some "R"⟩
          ⟨.netError, .netError, .httpError 429 "rate limited",
           .netError⟩) :=
  C8_non401_relay ⟨some "T", some "R"⟩ ⟨"GET", "/me", "", none, []⟩
    ⟨.netError, .netError, .httpError 429 "rate limited", .netError⟩
    429 "rate limited" rfl (by decide) (Or.inl rfl)

/-- C10: after a 401 from the initial upstream call, the retry is
issued exactly when the 401-path refresh reported success and the
refreshed access token is additionally truthy (line 125); when either
condition fails the client receives the 503 re-authentication failure
and only the one initial upstream call was made. -/
theorem C10_retry_guard (st : TokenState) (req : Req) (env : Env)
    (d : String) (h : env.upstream1 = .httpError 401 d)
    (hreach : truthy st.accessToken = true ∨
      (refreshAccessToken st env.refreshNet1).ok = true) :
    (((refreshAccessToken ⟨some "", (step1State st env).refreshToken⟩
          env.refreshNet2).ok &&
        truthy (refreshAccessToken
          ⟨some "", (step1State st env).refreshToken⟩
          env.refreshNet2).state.accessToken) = true →
      (upstreamRequestsOf (proxyHandler st req env).trace).length = 2) ∧
    (((refreshAccessToken ⟨some "", (step1State st env).refreshToken⟩
          env.refreshNet2).ok &&
        truthy (refreshAccessToken
          ⟨some "", (step1State st env).refreshToken⟩
          env.refreshNet2).state.accessToken) = false →
      (proxyHandler st req env).response = ⟨503, .errReAuth⟩ ∧
      (upstreamRequestsOf (proxyHandler st req env).trace).length = 1) := by
  rw [proxy_reach_eq st req env hreach]
  refine ⟨fun hg => ?_, fun hg => ?_⟩
  · rw [forward_401_retry_eq (step1State st env) req (mkUpstreamUrl req) env
      (step1Trace st env) d h hg]
    dsimp only
    rw [show step1Trace st env ++ [Event.upstreamCall (initialUpstreamRequest
          (step1State st env).accessToken req (mkUpstreamUrl req)),
        Event.refreshCall
          (refreshAccessToken ⟨some "", (step1State st env).refreshToken⟩
            env.refreshNet2).networkCall
          (refreshAccessToken ⟨some "", (step1State st env).refreshToken⟩
            env.refreshNet2).ok,
        Event.upstreamCall (retryUpstreamRequest
          (refreshAccessToken ⟨some "", (step1State st env).refreshToken⟩
            env.refreshNet2).state.accessToken req (mkUpstreamUrl req))]
      = step1Trace st env ++ ([Event.upstreamCall (initialUpstreamRequest
          (step1State st env).accessToken req (mkUpstreamUrl req)),
        Event.refreshCall
          (refreshAccessToken ⟨some "", (step1State st env).refreshToken⟩
            env.refreshNet2).networkCall
          (refreshAccessToken ⟨some "", (step1State st env).refreshToken⟩
            env.refreshNet2).ok,
        Event.upstreamCall (retryUpstreamRequest
          (refreshAccessToken ⟨some "", (step1State st env).refreshToken⟩
            env.refreshNet2).state.accessToken req (mkUpstreamUrl req))])
      from rfl, upstreamRequestsOf_append, upstreamRequestsOf_step1Trace]
    rfl
  · rw [forward_401_noretry_eq (step1State st env) req (mkUpstreamUrl req)
      env (step1Trace st env) d h hg]
    refine ⟨rfl, ?_⟩
    dsimp only
    rw [show step1Trace st env ++ [Event.upstreamCall (initialUpstreamRequest
          (step1State st env).accessToken req (mkUpstreamUrl req)),
        Event.refreshCall
          (refreshAccessToken ⟨some "", (step1State st env).refreshToken⟩
            env.refreshNet2).networkCall
          (refreshAccessToken ⟨some "", (step1State st env).refreshToken⟩
            env.refreshNet2).ok]
      = step1Trace st env ++ ([Event.upstreamCall (initialUpstreamRequest
          (step1State st env).accessToken req (mkUpstreamUrl req)),
        Event.refreshCall
          (refreshAccessToken ⟨some "", (step1State st env).refreshToken⟩
            env.refreshNet2).networkCall
          (refreshAccessToken ⟨some "", (step1State st env).refreshToken⟩
            env.refreshNet2).ok])
      from rfl, upstreamRequestsOf_append, upstreamRequestsOf_step1Trace]
    rfl

/-- Witness for C10 at concrete inputs: with a refresh that succeeds
with a non-empty token the retry is sent (two upstream calls); with a
refresh that fails the client gets the 503 and one upstream call. -/
theorem C10_witness :
    (upstreamRequestsOf (proxyHandler ⟨some "T", some "R"⟩
        ⟨"GET", "/me", "", none, []⟩
        ⟨.netError, .success ⟨some "NEW", none⟩, .httpError 401 "expired",
         .success 200 "ok"⟩).trace).length = 2 ∧
    ((proxyHandler ⟨some "T", some "R"⟩ ⟨"GET", "/me", "", none, []⟩
        ⟨.netError, .netError, .httpError 401 "expired",
         .success 200 "ok"⟩).response = ⟨503, .errReAuth⟩ ∧
      (upstreamRequestsOf (proxyHandler ⟨some "T", some "R"⟩
        ⟨"GET", "/me", "", none, []⟩
        ⟨.netError, .netError, .httpError 401 "expired",
         .success 200 "ok"⟩).trace).length = 1) :=
  ⟨(C10_retry_guard ⟨some "T", some "R"⟩ ⟨"GET", "/me", "", none, []⟩
      ⟨.netError, .success ⟨some "NEW", none⟩, .httpError 401 "expired",
       .success 200 "ok"⟩ "expired" rfl (Or.inl rfl)).1 (by decide),
   (C10_retry_guard ⟨some "T", some "R"⟩ ⟨"GET", "/me", "", none, []⟩
      ⟨.netError, .netError, .httpError 401 "expired",
       .success 200 "ok"⟩ "expired" rfl (Or.inl rfl)).2 (by decide)⟩

/-- C1 counterexample: an upstream 401 followed by a refresh that
SUCCEEDS (the token endpoint answers 2xx) but stores no access token
(the response has no access_token field). The claim says a successful
refresh is followed by exactly one retry whose result is relayed; the
code (line 125) additionally requires a truthy stored token, so no
retry is sent and the client receives the 503 instead. -/
theorem C1_counterexample :
    (refreshAccessToken ⟨some "", some "R"⟩ (.success ⟨none, none⟩)).ok
      = true ∧
    (proxyHandler ⟨some "T", some "R"⟩ ⟨"GET", "/me", "", none, []⟩
        ⟨.netError, .success ⟨none, none⟩, .httpError 401 "expired",
         .success 200 "ok"⟩).response = ⟨503, .errReAuth⟩ ∧
    (upstreamRequestsOf (proxyHandler ⟨some "T", some "R"⟩
        ⟨"GET", "/me", "", none, []⟩
        ⟨.netError, .success ⟨none, none⟩, .httpError 401 "expired",
         .success 200 "ok"⟩).trace).length = 1 := by decide

/-- C1 amended: on a 401 from the initial upstream call the gateway
clears the stored access token and invokes refresh exactly once (the
refresh runs on the cleared state, and the trace after the initial
upstream call contains exactly that one refresh); if the refresh
succeeds AND leaves a truthy access token, the upstream call is
retried exactly once with the new bearer token and the retry's
outcome — any status, including a second 401 — is relayed with no
further retry; if the refresh fails, or succeeds with an
empty/absent access token, the client receives the 503
re-authentication failure and no retry is sent. -/
theorem C1_refresh_retry (st : TokenState) (req : Req) (env : Env)
    (d : String) (h401 : env.upstream1 = .httpError 401 d)
    (hreach : truthy st.accessToken = true ∨
      (refreshAccessToken st env.refreshNet1).ok = true) :
    refreshEventsOf (proxyHandler st req env).trace =
      refreshEventsOf (step1Trace st env) ++
        [((refreshAccessToken ⟨some "", (step1State st env).refreshToken⟩
            env.refreshNet2).networkCall,
          (refreshAccessToken ⟨some "", (step1State st env).refreshToken⟩
            env.refreshNet2).ok)] ∧
    (((refreshAccessToken ⟨some "", (step1State st env).refreshToken⟩
          env.refreshNet2).ok &&
        truthy (refreshAccessToken
          ⟨some "", (step1State st env).refreshToken⟩
          env.refreshNet2).state.accessToken) = true →
      upstreamRequestsOf (proxyHandler st req env).trace =
        [initialUpstreamRequest (step1State st env).accessToken req
          (mkUpstreamUrl req),
         retryUpstreamRequest
          (refreshAccessToken ⟨some "", (step1State st env).refreshToken⟩
            env.refreshNet2).state.accessToken req (mkUpstreamUrl req)] ∧
      (proxyHandler st req env).response = retryRelay env.upstream2) ∧
    ((refreshAccessToken ⟨some "", (step1State st env).refreshToken⟩
        env.refreshNet2).ok = false →
      (proxyHandler st req env).response = ⟨503, .errReAuth⟩ ∧
      (upstreamRequestsOf (proxyHandler st req env).trace).length = 1) ∧
    ((refreshAccessToken ⟨some "", (step1State st env).refreshToken⟩
        env.refreshNet2).ok = true →
      truthy (refreshAccessToken
        ⟨some "", (step1State st env).refreshToken⟩
        env.refreshNet2).state.accessToken = false →
      (proxyHandler st req env).response = ⟨503, .errReAuth⟩ ∧
      (upstreamRequestsOf (proxyHandler st req env).trace).length = 1) := by
  rw [proxy_reach_eq st req env hreach]
  by_cases hg : ((refreshAccessToken
      ⟨some "", (step1State st env).refreshToken⟩ env.refreshNet2).ok &&
      truthy (refreshAccessToken
        ⟨some "", (step1State st env).refreshToken⟩
        env.refreshNet2).state.accessToken) = true
  · rw [forward_401_retry_eq (step1State st env) req (mkUpstreamUrl req)
      env (step1Trace st env) d h401 hg]
    rw [Bool.and_eq_true] at hg
    refine ⟨?_, fun _ => ⟨?_, rfl⟩,
      fun hok => absurd hg.1 (by rw [hok]; exact Bool.false_ne_true),
      fun _ htr => absurd hg.2 (by rw [htr]; exact Bool.false_ne_true)⟩
    · dsimp only
      rw [refreshEventsOf_append]
      rfl
    · dsimp only
      rw [upstreamRequestsOf_append, upstreamRequestsOf_step1Trace]
      rfl
  · rw [forward_401_noretry_eq (step1State st env) req (mkUpstreamUrl req)
      env (step1Trace st env) d h401 (eq_false_of_ne_true hg)]
    have hlen : (upstreamRequestsOf ((⟨⟨503, .errReAuth⟩,
        (refreshAccessToken ⟨some "", (step1State st env).refreshToken⟩
          env.refreshNet2).state,
        step1Trace st env ++
          [Event.upstreamCall (initialUpstreamRequest
            (step1State st env).accessToken req (mkUpstreamUrl req)),
           Event.refreshCall
            (refreshAccessToken ⟨some "", (step1State st env).refreshToken⟩
              env.refreshNet2).networkCall
            (refreshAccessToken ⟨some "", (step1State st env).refreshToken⟩
              env.refreshNet2).ok]⟩ : HandlerResult).trace)).length = 1 := by
      dsimp only
      rw [upstreamRequestsOf_append, upstreamRequestsOf_step1Trace]
      rfl
    refine ⟨?_, fun h2 => absurd h2 hg, fun _ => ⟨rfl, hlen⟩,
      fun _ _ => ⟨rfl, hlen⟩⟩
    dsimp only
    rw [refreshEventsOf_append]
    rfl

/-- Witness for C1 at a concrete input: expired token, upstream 401,
refresh succeeds with a fresh token, retry relayed (a second 401 would
equally be relayed by `retryRelay`). -/
theorem C1_witness :
    refreshEventsOf (proxyHandler ⟨some "T", some "R"⟩
        ⟨"GET", "/me", "", none, []⟩
        ⟨.netError, .success ⟨some "NEW", none⟩, .httpError 401 "expired",
         .httpError 401 "still"⟩).trace = [(true, true)] ∧
    upstreamRequestsOf (proxyHandler ⟨some "T", some "R"⟩
        ⟨"GET", "/me", "", none, []⟩
        ⟨.netError, .success ⟨some "NEW", none⟩, .httpError 401 "expired",
         .httpError 401 "still"⟩).trace
      = [⟨"GET", "https://api.spotify.com/v1/me", "Bearer T", none, none⟩,
         ⟨"GET", "https://api.spotify.com/v1/me", "Bearer NEW", none,
          some []⟩] ∧
    (proxyHandler ⟨some "T", some "R"⟩ ⟨"GET", "/me", "", none, []⟩
        ⟨.netError, .success ⟨some "NEW", none⟩, .httpError 401 "expired",
         .httpError 401 "still"⟩).response = ⟨401, .relayed "still"⟩ := by
  have h := C1_refresh_retry ⟨some "T", some "R"⟩
    ⟨"GET", "/me", "", none, []⟩
    ⟨.netError, .success ⟨some "NEW", none⟩, .httpError 401 "expired",
     .httpError 401 "still"⟩ "expired" rfl (Or.inl rfl)
  have h2 := h.2.1 (by decide)
  refine ⟨?_, ?_, ?_⟩
  · rw [h.1]; decide
  · rw [h2.1]; decide
  · rw [h2.2]; decide

/-- C7: evaluation of the handler at the failing input. On a POST
carrying `Content-Type: application/json` and a non-empty body, the
initial upstream call forwards the content-type but the 401-retry
(lines 129-135) sends only the Authorization header — the content-type
is dropped, so the retry is not identical to the initial attempt
modulo the bearer token. A second evaluation shows the body handling
also differs: on a body-less GET the initial call sends no body while
the retry passes the empty body object. -/
theorem C7_retry_not_identical :
    upstreamRequestsOf (proxyHandler ⟨some "T", some "R"⟩
        ⟨"POST", "/me", "", some "application/json", [("a", "1")]⟩
        ⟨.netError, .success ⟨some "NEW", none⟩, .httpError 401 "expired",
         .success 200 "ok"⟩).trace
      = [⟨"POST", "https://api.spotify.com/v1/me", "Bearer T",
          some "application/json", some [("a", "1")]⟩,
         ⟨"POST", "https://api.spotify.com/v1/me", "Bearer NEW", none,
          some [("a", "1")]⟩] ∧
    upstreamRequestsOf (proxyHandler ⟨some "T", some "R"⟩
        ⟨"GET", "/me", "", none, []⟩
        ⟨.netError, .success ⟨some "NEW", none⟩, .httpError 401 "expired",
         .success 200 "ok"⟩).trace
      = [⟨"GET", "https://api.spotify.com/v1/me", "Bearer T", none, none⟩,
         ⟨"GET", "https://api.spotify.com/v1/me", "Bearer NEW", none,
          some []⟩] := by decide

/-- C9: a token-endpoint call that completes with a 2xx status makes
the refresh report success regardless of the response body: the
access_token field is stored as is, and when the field is absent the
stored access token becomes undefined (falsy) while the refresh still
returns true. -/
theorem C9_success_regardless (st : TokenState) (data : TokenResponseData)
    (h : truthy st.refreshToken = true) :
    (refreshAccessToken st (.success data)).ok = true ∧
    (refreshAccessToken st (.success data)).state.accessToken
        = data.access_token ∧
    (data.access_token = none →
      truthy (refreshAccessToken st (.success data)).state.accessToken
          = false) := by
  rw [refresh_success_eq st data h]
  refine ⟨rfl, rfl, fun hn => ?_⟩
  show truthy data.access_token = false
  rw [hn]
  rfl

/-- Witness for C9 at a concrete input: a 2xx response with no
access_token field yields success with a falsy stored access token. -/
theorem C9_witness :
    (refreshAccessToken ⟨some "old", some "R"⟩
        (.success ⟨none, none⟩)).ok = true ∧
    (refreshAccessToken ⟨some "old", some "R"⟩
        (.success ⟨none, none⟩)).state.accessToken
        = (TokenResponseData.mk none none).access_token ∧
    ((TokenResponseData.mk none none).access_token = none →
      truthy (refreshAccessToken ⟨some "old", some "R"⟩
          (.success ⟨none, none⟩)).state.accessToken = false) :=
  C9_success_regardless ⟨some "old", some "R"⟩ ⟨none, none⟩ (by decide)

end SpotifyProxy
